import Mathlib

/-!
Verification development for the Automated-Data-Collection repository.

The repository's executable content consists of short notebook snippets:
an emission-logging function `emission_log` together with its interactive
driver cell, and a magnification-stepping exercise (`UpSelector` loop and
`test4`) written against the vendor `PyJEM.TEM3.EOS3` class.  The snippets
are embedded here as pure Lean functions; the vendor `EOS3` class itself is
not part of the repository, so its selector state is modelled from the
documentation shipped with the notebooks.
-/

namespace ADC

/-- Python runtime values occurring in the snippets: integers, strings, and
the `None` singleton. -/
inductive PyVal where
  | pyInt (n : Int)
  | pyStr (s : String)
  | pyNone
deriving DecidableEq, Repr

/-- Python `==` on the values above: numbers compare by value, strings by
value, `None` only equals `None`, and values of different kinds are unequal. -/
def pyEq : PyVal → PyVal → Bool
  | .pyInt a, .pyInt b => a == b
  | .pyStr a, .pyStr b => a == b
  | .pyNone, .pyNone => true
  | _, _ => false

/-! ## The EOS3 magnification selector

Modelled from the spec: the vendor class `PyJEM.offline.TEM3.EOS3` is not
part of the repository sources; only its help text (documented in the TEM3
notebook: `SetSelector` takes an index 0-40, `UpSelector` increments the
magnification number, `DownSelector` decrements it, `GetMagValue` returns a
three-element list [value, unit, label]) and the recorded notebook outputs
(`[200, 'X', 'X200']`, `[250, 'X', 'X250']`, the sequences 300..2500 and
30000..250000) are available.  The table below lists the 41 selector
positions, filled in from the recorded outputs and the 1-1.2-1.5-2-2.5-3-4-
5-6-8 decade pattern they follow. -/
def magTable : List Nat :=
  [200, 250, 300, 400, 500, 600, 800, 1000, 1200, 1500, 2000, 2500,
   3000, 4000, 5000, 6000, 8000, 10000, 12000, 15000, 20000, 25000,
   30000, 40000, 50000, 60000, 80000, 100000, 120000, 150000, 200000, 250000,
   300000, 400000, 500000, 600000, 800000, 1000000, 1200000, 1500000, 2000000]

/-- Highest selector index documented for `SetSelector` (indices run 0-40). -/
def maxSelector : Nat := 40

/-- Unit string reported by `GetMagValue` in every recorded output. -/
def magUnit : String := "X"

/-- Textual rendering of a magnification value as it appears in the
recorded labels: values from 10000 up are abbreviated with a `k` suffix
(`X30k`, `X250k`), smaller values are written in full (`X250`, `X2500`). -/
def magText (v : Nat) : String :=
  if v ≥ 10000 then toString (v / 1000) ++ "k" else toString v

/-- Modelled from the spec: the state of the vendor `EOS3` instance is its
magnification selector number. -/
structure EOS3 where
  selector : Nat
deriving DecidableEq, Repr

/-- Magnification value at the current selector position; positions beyond
the documented range 0-40 read the top entry. -/
def magOf (s : EOS3) : Nat :=
  magTable.getD (min s.selector maxSelector) 0

/-- Modelled from the spec: `GetMagValue` returns the three-element list
[magnification value, unit string, label], the label being the unit string
followed by the textual rendering of the value. -/
def GetMagValue (s : EOS3) : List PyVal :=
  [.pyInt (magOf s), .pyStr magUnit, .pyStr (magUnit ++ magText (magOf s))]

/-- Modelled from the spec: `UpSelector` increments the magnification
selector number. -/
def UpSelector (s : EOS3) : EOS3 :=
  ⟨s.selector + 1⟩

/-- Modelled from the spec: `DownSelector` decrements the magnification
selector number. -/
def DownSelector (s : EOS3) : EOS3 :=
  ⟨s.selector - 1⟩

/-- Modelled from the spec: `SetSelector` sets the magnification selector
number; documented inputs are the indices 0-40. -/
def SetSelector (v : Nat) (_s : EOS3) : EOS3 :=
  ⟨min v maxSelector⟩

/-- The selector operations available on an `EOS3` instance. -/
inductive SelOp where
  | setSel (v : Nat)
  | up
  | down
deriving DecidableEq, Repr

/-- Apply one selector operation to the `EOS3` state. -/
def applyOp : SelOp → EOS3 → EOS3
  | .setSel v, s => SetSelector v s
  | .up, s => UpSelector s
  | .down, s => DownSelector s

/-- Apply a sequence of selector operations, left to right. -/
def applyOps (ops : List SelOp) (s : EOS3) : EOS3 :=
  ops.foldl (fun s op => applyOp op s) s

/-- Observable events of the `test4` snippet: a call to `eos.UpSelector()`
or a `print` of the value returned by `eos.GetMagValue()`. -/
inductive Event where
  | upSelectorCall
  | printVal (v : List PyVal)
deriving DecidableEq, Repr

/-- Number of `UpSelector` calls in an event trace. -/
def upCalls (tr : List Event) : Nat :=
  tr.countP (fun e => match e with | .upSelectorCall => true | _ => false)

/-- Embedding of the notebook function
`def test4(loop): for i in range(loop): eos.UpSelector(); print(eos.GetMagValue())`:
the final `eos` state together with the trace of calls and prints. -/
def test4 : Nat → EOS3 → EOS3 × List Event
  | 0, s => (s, [])
  | n + 1, s =>
    let s1 := UpSelector s
    let rest := test4 n s1
    (rest.1, Event.upSelectorCall :: Event.printVal (GetMagValue s1) :: rest.2)

/-! ## The emission-logging snippet -/

/-- Ambient data a run of `emission_log` reads from the outside world: the
`str()` rendering of the emission current value returned by
`GUN3.GetEmissionCurrentValue()` on the i-th acquisition, and the
`%Y/%m/%d_%H:%M:%S` rendering of `datetime.datetime.today()` on the i-th
iteration (without the trailing space that the strftime format string in the
source adds after it). -/
structure EmissionEnv where
  emission : Nat → String
  timestamp : Nat → String

/-- Opening a file in mode `"w"` discards its previous contents. -/
def openWrite (_prev : List String) : List String := []

/-- Observable outcome of a run of `emission_log`: the lines printed, the
contents of `log.txt` after the run (one entry per `file.write` call),
whether `file.close()` ran, the arguments passed to `time.sleep`, and the
Python return value of the call. -/
structure EmissionLogResult where
  printed : List String
  logAfter : List String
  fileClosed : Bool
  sleeps : List Int
  ret : PyVal
deriving DecidableEq, Repr

/-- Body of `for i in range(count)` in `emission_log`, started at iteration
`i` with `n` iterations remaining: each pass acquires a value, prints
`"Emission Value: " + str(value)`, builds
`date.strftime("%Y/%m/%d_%H:%M:%S ") + "EmissionValue: " + str(value) + "\n"`
and writes it to the file, then sleeps for the global `interval_time`.
Returns the values acquired, the lines printed, the strings written, and the
sleep durations, in order. -/
def emissionLoop (env : EmissionEnv) (interval_time : Int) :
    Nat → Nat → List String × List String × List String × List Int
  | _, 0 => ([], [], [], [])
  | i, n + 1 =>
    let value := env.emission i
    let printedLine := "Emission Value: " ++ value
    let write_data := env.timestamp i ++ " " ++ "EmissionValue: " ++ value ++ "\n"
    let rest := emissionLoop env interval_time (i + 1) n
    (value :: rest.1, printedLine :: rest.2.1, write_data :: rest.2.2.1,
     interval_time :: rest.2.2.2)

/-- Embedding of the notebook function `emission_log(count, sleeptime=1)`.
The `sleeptime` parameter may be a value of any type (the driver cell passes
the `time` module itself); the loop sleeps for the global `interval_time`
instead and never reads `sleeptime`.  `logBefore` is the content of
`log.txt` before the call; `open("log.txt", "w")` discards it.  The function
body ends after the plotting calls with no `return` statement, so the call
returns `None`. -/
def emission_log {α : Type} (count : Nat) (sleeptime : α) (interval_time : Int)
    (env : EmissionEnv) (logBefore : List String) : EmissionLogResult :=
  let result := emissionLoop env interval_time 0 count
  { printed := result.2.1
    logAfter := openWrite logBefore ++ result.2.2.1
    fileClosed := true
    sleeps := result.2.2.2
    ret := .pyNone }

/-- Values acquired by a run of `emission_log` (the `y` accumulator of the
source, used for the plot): one entry per `GetEmissionCurrentValue` call. -/
def emissionAcquired {α : Type} (count : Nat) (_sleeptime : α)
    (interval_time : Int) (env : EmissionEnv) : List String :=
  (emissionLoop env interval_time 0 count).1

/-! ## The driver cell -/

/-- Value of the digit string `cs`, or `none` when `cs` is empty or holds a
non-digit character. -/
def digitsValue (cs : List Char) : Option Nat :=
  if cs ≠ [] ∧ cs.all Char.isDigit then
    some (cs.foldl (fun acc c => acc * 10 + (c.toNat - '0'.toNat)) 0)
  else none

/-- Surrounding whitespace of a character list, dropped from both ends. -/
def pyStrip (cs : List Char) : List Char :=
  ((cs.dropWhile Char.isWhitespace).reverse.dropWhile Char.isWhitespace).reverse

/-- Python `int()` applied to a string: surrounding whitespace is dropped,
an optional sign precedes a nonempty run of digits; anything else raises
`ValueError`.  On success the result is always an integer, never `None`. -/
def pyIntOfString (s : String) : Option Int :=
  match pyStrip s.data with
  | '+' :: cs => (digitsValue cs).map Int.ofNat
  | '-' :: cs => (digitsValue cs).map (fun n => -(n : Int))
  | cs => (digitsValue cs).map Int.ofNat

/-- `int(input(...))` on the text `s` typed by the user: an integer value or
a raised `ValueError`. -/
def int_input (s : String) : Except String PyVal :=
  match pyIntOfString s with
  | some n => .ok (.pyInt n)
  | none => .error "ValueError"

/-- Outcome of the driver cell: the values bound to `count` and
`interval_time` when execution reaches `emission_log(count, time)`, and
whether either `== None` fallback branch ran. -/
structure DriverTrace where
  count : PyVal
  interval_time : PyVal
  countFallback : Bool
  intervalFallback : Bool
deriving DecidableEq, Repr

/-- Embedding of the driver cell: `count = int(input(...))`, the
`if count == None` recovery, `interval_time = int(input(...))`, the
`if interval_time == None` recovery, in source order; a `ValueError` from
either `int()` propagates. -/
def driver (input1 input2 : String) : Except String DriverTrace := do
  let c0 ← int_input input1
  let c := if pyEq c0 .pyNone then (PyVal.pyInt 1, true) else (c0, false)
  let i0 ← int_input input2
  let it := if pyEq i0 .pyNone then (PyVal.pyInt 1, true) else (i0, false)
  return ⟨c.1, it.1, c.2, it.2⟩

/-! ## Helper lemmas -/

/-- Adjacent entries of the magnification table are strictly increasing. -/
theorem magTable_lt : ∀ i : Fin 40, magTable.getD i.val 0 < magTable.getD (i.val + 1) 0 := by
  decide

/-- Closed form of the emission-logging loop: started at iteration `i` with
`n` passes remaining, it acquires the values of iterations `i, i+1, ...`,
prints one line and writes one string per pass, and sleeps `n` times for the
global `interval_time`. -/
theorem emissionLoop_eq (env : EmissionEnv) (it : Int) (n : Nat) :
    ∀ i, emissionLoop env it i n =
      ((List.range n).map (fun k => env.emission (i + k)),
       (List.range n).map (fun k => "Emission Value: " ++ env.emission (i + k)),
       (List.range n).map (fun k =>
         env.timestamp (i + k) ++ " " ++ "EmissionValue: " ++ env.emission (i + k) ++ "\n"),
       List.replicate n it) := by
  induction n with
  | zero => intro i; simp [emissionLoop]
  | succ n ih =>
    intro i
    rw [emissionLoop, ih (i + 1)]
    simp only [List.range_succ_eq_map, List.map_cons, List.map_map,
      Nat.add_succ, Nat.succ_add, Nat.add_zero, List.replicate_succ, Prod.mk.injEq]
    exact ⟨rfl, rfl, rfl, trivial⟩

/-- Rebracketing of a written log line: the trailing space of the strftime
format string merges with the literal that follows it. -/
theorem write_data_eq (a b : String) :
    a ++ " " ++ "EmissionValue: " ++ b ++ "\n" = a ++ " EmissionValue: " ++ b ++ "\n" := by
  have h : (" " : String) ++ "EmissionValue: " = " EmissionValue: " := rfl
  rw [String.append_assoc a " " "EmissionValue: ", h]

/-- A successful `int(input(...))` always yields an integer value. -/
theorem int_input_pyInt {s : String} {v : PyVal} (h : int_input s = .ok v) :
    ∃ n : Int, v = .pyInt n := by
  unfold int_input at h
  cases hp : pyIntOfString s with
  | none => simp [hp] at h
  | some n => simp [hp] at h; exact ⟨n, h.symm⟩

/-- Peeling the first index off a `flatMap` over `List.range`. -/
theorem range_succ_flatMap {α : Type} (g : Nat → List α) (n : Nat) :
    (List.range (n + 1)).flatMap g = g 0 ++ (List.range n).flatMap (fun k => g (k + 1)) := by
  rw [List.range_succ_eq_map, List.flatMap_cons, ← List.flatMap_map Nat.succ g]

/-- Closed form of `test4`: starting from state `s`, the selector ends `n`
steps higher and the trace alternates `UpSelector` calls with prints of the
magnification value one step further up. -/
theorem test4_eq (n : Nat) : ∀ s : EOS3,
    test4 n s = (⟨s.selector + n⟩,
      (List.range n).flatMap (fun i =>
        [Event.upSelectorCall, Event.printVal (GetMagValue ⟨s.selector + i + 1⟩)])) := by
  induction n with
  | zero => intro s; rfl
  | succ n ih =>
    intro s
    simp only [test4, UpSelector]
    rw [ih, range_succ_flatMap]
    simp only [List.cons_append, List.nil_append, Nat.succ_add, Nat.add_succ, Nat.add_zero]

/-- A trace of call/print pairs holds exactly one `UpSelector` call per pair. -/
theorem upCalls_pairs (g : Nat → List PyVal) (l : List Nat) :
    upCalls (l.flatMap (fun i => [Event.upSelectorCall, Event.printVal (g i)])) = l.length := by
  induction l with
  | nil => rfl
  | cons a l ih => simp [upCalls, List.countP_cons] at ih ⊢; omega

/-- Closed form of a run of `emission_log`: the lines printed, the final
contents of `log.txt`, the close flag, the sleep durations, and the return
value, for any `count`, any `sleeptime`, any ambient data, and any previous
log contents. -/
theorem emission_log_eq {α : Type} (count : Nat) (sleeptime : α) (interval_time : Int)
    (env : EmissionEnv) (logBefore : List String) :
    emission_log count sleeptime interval_time env logBefore =
      { printed := (List.range count).map (fun i => "Emission Value: " ++ env.emission i)
        logAfter := (List.range count).map
          (fun i => env.timestamp i ++ " EmissionValue: " ++ env.emission i ++ "\n")
        fileClosed := true
        sleeps := List.replicate count interval_time
        ret := .pyNone } := by
  simp only [emission_log, openWrite, emissionLoop_eq env interval_time count 0,
    Nat.zero_add, List.nil_append]
  have h : (List.range count).map
        (fun i => env.timestamp i ++ " " ++ "EmissionValue: " ++ env.emission i ++ "\n") =
      (List.range count).map
        (fun i => env.timestamp i ++ " EmissionValue: " ++ env.emission i ++ "\n") :=
    List.map_congr_left fun i _ => write_data_eq (env.timestamp i) (env.emission i)
  rw [h]

/-- Anchor: the recorded output `[250, 'X', 'X250']` after `SetSelector(1)`. -/
theorem setSelector_one_recorded :
    GetMagValue (SetSelector 1 ⟨0⟩) = [.pyInt 250, .pyStr "X", .pyStr "X250"] := by
  decide

/-- Anchor: the recorded output `[30000, 'X', 'X30k']` at selector 22. -/
theorem selector_22_recorded :
    GetMagValue ⟨22⟩ = [.pyInt 30000, .pyStr "X", .pyStr "X30k"] := by
  decide

/-! ## Claims -/

/-- C1: for every `count ≥ 0` and every `sleeptime`, `emission_log(count,
sleeptime)` acquires the gun emission current value exactly `count` times,
prints `"Emission Value: <v>"` once per acquisition, opens `log.txt` in
write mode (discarding any previous contents, so with `count = 0` the file
is left empty), writes exactly `count` lines, the i-th line being a
timestamp followed by `" EmissionValue: "` and the i-th acquired value,
closes the file, and returns `None`. -/
theorem emission_log_spec {α : Type} (count : Nat) (sleeptime : α) (interval_time : Int)
    (env : EmissionEnv) (logBefore : List String) :
    emissionAcquired count sleeptime interval_time env = (List.range count).map env.emission ∧
    (emission_log count sleeptime interval_time env logBefore).printed =
      (List.range count).map (fun i => "Emission Value: " ++ env.emission i) ∧
    (emission_log count sleeptime interval_time env logBefore).logAfter =
      (List.range count).map
        (fun i => env.timestamp i ++ " EmissionValue: " ++ env.emission i ++ "\n") ∧
    (emission_log count sleeptime interval_time env logBefore).logAfter.length = count ∧
    (emission_log 0 sleeptime interval_time env logBefore).logAfter = [] ∧
    (emission_log count sleeptime interval_time env logBefore).fileClosed = true ∧
    (emission_log count sleeptime interval_time env logBefore).ret = PyVal.pyNone := by
  refine ⟨?_, ?_, ?_, ?_, ?_, ?_, ?_⟩
  · simp only [emissionAcquired, emissionLoop_eq env interval_time count 0, Nat.zero_add]
  · rw [emission_log_eq]
  · rw [emission_log_eq]
  · rw [emission_log_eq]
    exact (List.length_map _ _).trans (List.length_range count)
  · rw [emission_log_eq]
    rfl
  · rw [emission_log_eq]
  · rw [emission_log_eq]

/-- C3: for every `n ≥ 0`, `test4(n)` calls `eos.UpSelector()` exactly `n`
times, after each call reads and prints `eos.GetMagValue()`, and on return
the magnification selector has advanced exactly `n` steps from its starting
position; for `n = 0` no call is made, the state is unchanged, and nothing
is printed. -/
theorem test4_spec (n : Nat) (s : EOS3) :
    (test4 n s).1.selector = s.selector + n ∧
    (test4 n s).2 = (List.range n).flatMap (fun i =>
      [Event.upSelectorCall, Event.printVal (GetMagValue ⟨s.selector + i + 1⟩)]) ∧
    upCalls (test4 n s).2 = n ∧
    (test4 0 s).1 = s ∧
    (test4 0 s).2 = [] := by
  rw [test4_eq n s]
  refine ⟨rfl, rfl, ?_, rfl, rfl⟩
  rw [upCalls_pairs (fun i => GetMagValue ⟨s.selector + i + 1⟩) (List.range n)]
  exact List.length_range n

/-- C4: in every state whose magnification selector is below its maximum
index, `UpSelector` strictly increases the numeric magnification value
reported as the first element of `GetMagValue()`. -/
theorem upSelector_strictly_increases_mag (s : EOS3) (h : s.selector < maxSelector) :
    ∃ v w : Int, (GetMagValue s).head? = some (PyVal.pyInt v) ∧
      (GetMagValue (UpSelector s)).head? = some (PyVal.pyInt w) ∧ v < w := by
  refine ⟨magOf s, magOf (UpSelector s), rfl, rfl, ?_⟩
  have hv : magOf s = magTable.getD s.selector 0 := by
    unfold magOf
    rw [Nat.min_eq_left (Nat.le_of_lt h)]
  have hw : magOf (UpSelector s) = magTable.getD (s.selector + 1) 0 := by
    show magTable.getD (min (s.selector + 1) maxSelector) 0 = magTable.getD (s.selector + 1) 0
    rw [Nat.min_eq_left h]
  rw [hv, hw]
  exact Int.ofNat_lt.mpr (magTable_lt ⟨s.selector, h⟩)

/-- Witness for C4: from the initial state the first `UpSelector` step
raises the reported magnification. -/
theorem upSelector_strictly_increases_mag_witness :
    ∃ v w : Int, (GetMagValue ⟨0⟩).head? = some (PyVal.pyInt v) ∧
      (GetMagValue (UpSelector ⟨0⟩)).head? = some (PyVal.pyInt w) ∧ v < w :=
  upSelector_strictly_increases_mag ⟨0⟩ (by decide)

/-- C5: the observable output of `emission_log` does not depend on its
`sleeptime` parameter, which is never read (the loop sleeps for the global
`interval_time`): two runs with the same count, acquired values and
timestamps — even with `sleeptime` values of different types, as in the
driver call `emission_log(count, time)` — print the same lines and write
identical contents to `log.txt`. -/
theorem emission_log_sleeptime_independent {α β : Type} (count : Nat) (s1 : α) (s2 : β)
    (interval_time : Int) (env : EmissionEnv) (logBefore : List String) :
    emission_log count s1 interval_time env logBefore =
      emission_log count s2 interval_time env logBefore ∧
    (emission_log count s1 interval_time env logBefore).sleeps =
      List.replicate count interval_time :=
  ⟨rfl, by simp [emission_log, emissionLoop_eq]⟩

/-- C6: in the driver cell the fallback branches `if count == None` and
`if interval_time == None` are unreachable: `int(input(...))` either yields
an integer — never `None` — or raises `ValueError`, so whenever the cell
reaches the call to `emission_log` neither recovery assignment has run. -/
theorem driver_fallbacks_unreachable (input1 input2 : String) (t : DriverTrace)
    (h : driver input1 input2 = .ok t) :
    t.countFallback = false ∧ t.intervalFallback = false := by
  unfold driver at h
  cases h1 : int_input input1 with
  | error e => rw [h1] at h; exact absurd h (by simp [Bind.bind, Except.bind])
  | ok c =>
    cases h2 : int_input input2 with
    | error e =>
      rw [h1, h2] at h
      exact absurd h (by simp [Bind.bind, Except.bind])
    | ok i =>
      obtain ⟨nc, rfl⟩ := int_input_pyInt h1
      obtain ⟨ni, rfl⟩ := int_input_pyInt h2
      rw [h1, h2] at h
      simp [Bind.bind, Except.bind, pyEq, pure, Except.pure] at h
      cases h
      exact ⟨rfl, rfl⟩

/-- Witness for C6: on the recorded session inputs `10` and `1` the driver
reaches `emission_log` with both fallback flags clear. -/
theorem driver_fallbacks_unreachable_witness :
    (⟨PyVal.pyInt 10, PyVal.pyInt 1, false, false⟩ : DriverTrace).countFallback = false ∧
    (⟨PyVal.pyInt 10, PyVal.pyInt 1, false, false⟩ : DriverTrace).intervalFallback = false :=
  driver_fallbacks_unreachable "10" "1" ⟨PyVal.pyInt 10, PyVal.pyInt 1, false, false⟩ (by rfl)

/-- C7: after every sequence of selector operations, `GetMagValue()` returns
a list of exactly three elements `[value, unit, label]`, the second element
being the unit string and the third the label formed from the unit followed
by the textual rendering of the magnification value. -/
theorem getMagValue_shape (ops : List SelOp) (s0 : EOS3) :
    (GetMagValue (applyOps ops s0)).length = 3 ∧
    ∃ v : Nat, GetMagValue (applyOps ops s0) =
      [PyVal.pyInt v, PyVal.pyStr magUnit, PyVal.pyStr (magUnit ++ magText v)] :=
  ⟨rfl, ⟨magOf (applyOps ops s0), rfl⟩⟩

end ADC
